import Mathlib

/-!
Shallow embedding of the book recommender (src/main.py) over lists of records.

Modelling conventions:
* a pandas DataFrame column is a field of a record; a table is a `List` of records;
* `NaN` cells are `Option.none`;
* the floating point fractions computed by `find_most_similar` are modelled as exact
  rationals (`ℚ`);
* `Series.value_counts` and `DataFrame.sort_values` are modelled as a
  descending sort (`List.insertionSort` with a "greater or equal key" relation),
  with a missing (`NaN`) score ordered last, matching the documented
  `na_position` behaviour of `sort_values`. The relative order of equal-key rows
  is an idealization: pandas runs these sorts with the default
  `kind` of quicksort, and documents only mergesort/stable as stable, so
  equal-key order is not specified; the embedding fixes the deterministic stable
  first-appearance order. No theorem below about non-singleton tables depends on
  the order chosen among equal keys, except through concrete frames small enough
  that the library sort is stable on them too;
* `Series.unique` keeps the first occurrence of each value, in order of appearance;
* `pd.concat(axis=1)` (default `sort=False`) aligns on the first operand's index
  order, appending keys that only occur in the second operand;
* the only run-time failure in `main.py` is the `IndexError` raised by `.iloc[0]`
  on an empty selection, so fallible functions return `Except PdError` with the
  single error value `PdError.indexError`.
-/

namespace BookRecommender

/-- PdError is the one failure the script can raise: the `IndexError` coming from
`.iloc[0]` on an empty DataFrame selection (raised by both `get_name_from_isbn`
and `find_most_similar`, and caught in `main`). -/
inductive PdError where
  | indexError
deriving DecidableEq, Repr

/-- Rating is one row of Ratings.csv: columns `User-ID`, `ISBN`, `Book-Rating`. -/
structure Rating where
  userId : Nat
  isbn : String
  bookRating : Int
deriving DecidableEq, Repr

/-- RawBook is one row of Books.csv before cleaning: columns `ISBN`, `Book-Title`,
`Book-Author`, `Publisher` and the three image URL columns; `Book-Author` and
`Publisher` may be missing (`NaN`). -/
structure RawBook where
  isbn : String
  title : String
  author : Option String
  publisher : Option String
  imageURLS : Option String
  imageURLM : Option String
  imageURLL : Option String
deriving DecidableEq, Repr

/-- Book is a row of the books table after `prep_dataset` dropped the three image
URL columns. -/
structure Book where
  isbn : String
  title : String
  author : Option String
  publisher : Option String
deriving DecidableEq, Repr

/-- RawUser is one row of Users.csv before cleaning: columns `User-ID`, `Location`,
`Age`. -/
structure RawUser where
  userId : Nat
  location : Option String
  age : Option Nat
deriving DecidableEq, Repr

/-- User is a row of the users table after `prep_dataset` dropped the `Age` column. -/
structure User where
  userId : Nat
  location : Option String
deriving DecidableEq, Repr

/-- dropImageCols models `books.drop(columns=['Image-URL-S', 'Image-URL-M',
'Image-URL-L'])` (main.py line 108) on a single row. -/
def dropImageCols (b : RawBook) : Book :=
  ⟨b.isbn, b.title, b.author, b.publisher⟩

/-- Book.toRaw re-embeds a cleaned book row into the raw schema (the dropped image
columns become missing cells), so that cleaning can be re-applied to its own
output. -/
def Book.toRaw (b : Book) : RawBook :=
  ⟨b.isbn, b.title, b.author, b.publisher, none, none, none⟩

/-- dropAgeCol models `users.drop(columns=['Age'])` (main.py line 114) on a single
row. -/
def dropAgeCol (u : RawUser) : User :=
  ⟨u.userId, u.location⟩

/-- User.toRaw re-embeds a cleaned user row into the raw schema (the dropped `Age`
column becomes a missing cell). -/
def User.toRaw (u : User) : RawUser :=
  ⟨u.userId, u.location, none⟩

/-- uniqueAux is the worker for `unique`: it walks the list keeping every element
not already seen. -/
def uniqueAux [DecidableEq α] (seen : List α) : List α → List α
  | [] => []
  | x :: xs => if x ∈ seen then uniqueAux seen xs else x :: uniqueAux (x :: seen) xs

/-- unique models `pandas.Series.unique`: the distinct values of a column in order
of first appearance. -/
def unique [DecidableEq α] (l : List α) : List α :=
  uniqueAux [] l

/-- countRel orders `(value, count)` pairs by descending count; it is the sort
relation used to model `Series.value_counts`. -/
def countRel (p q : String × Nat) : Prop :=
  q.2 ≤ p.2

instance : DecidableRel countRel := fun p q =>
  inferInstanceAs (Decidable (q.2 ≤ p.2))

instance : IsTotal (String × Nat) countRel :=
  ⟨fun p q => Nat.le_total q.2 p.2⟩

instance : IsTrans (String × Nat) countRel :=
  ⟨fun _ _ _ h1 h2 => Nat.le_trans h2 h1⟩

/-- value_counts models `pandas.Series.value_counts()`: the count of every distinct
value, sorted by descending count. Count-ties are placed in first-appearance
order, a deterministic idealization: the library sorts its hashtable-ordered
keys with the default unstable quicksort, so its equal-count order is
unspecified (see the module header). -/
def value_counts (l : List String) : List (String × Nat) :=
  List.insertionSort countRel ((unique l).map fun k => (k, l.count k))

/-- book_ratings models main.py lines 63-64: the rows of the ratings table whose
`ISBN` equals `book_id` and whose `Book-Rating` is strictly greater than 8. -/
def book_ratings (ratings : List Rating) (book_id : String) : List Rating :=
  ratings.filter fun r => r.isbn == book_id && decide (r.bookRating > 8)

/-- sim_users models main.py line 65: the distinct `User-ID`s of `book_ratings`, in
order of first appearance. -/
def sim_users (ratings : List Rating) (book_id : String) : List Nat :=
  unique ((book_ratings ratings book_id).map Rating.userId)

/-- sim_user_recs_series models main.py lines 66-67: the `ISBN` column of the
rating rows whose user is one of `sim_users` and whose rating is strictly
greater than 8. -/
def sim_user_recs_series (ratings : List Rating) (book_id : String) : List String :=
  (ratings.filter fun r =>
      (sim_users ratings book_id).contains r.userId && decide (r.bookRating > 8)).map
    Rating.isbn

/-- sim_user_fracs models main.py line 71: `value_counts` of the similar users'
liked ISBNs, divided by the number of similar users. -/
def sim_user_fracs (ratings : List Rating) (book_id : String) : List (String × ℚ) :=
  (value_counts (sim_user_recs_series ratings book_id)).map fun kn =>
    (kn.1, (kn.2 : ℚ) / ((sim_users ratings book_id).length : ℚ))

/-- sim_user_recs models main.py line 72: the candidates whose fraction of similar
users is strictly greater than 0.05. -/
def sim_user_recs (ratings : List Rating) (book_id : String) : List (String × ℚ) :=
  (sim_user_fracs ratings book_id).filter fun p => decide (p.2 > 0.05)

/-- all_users models main.py lines 76-77: the rating rows whose `ISBN` is one of
the surviving candidates and whose rating is strictly greater than 8. -/
def all_users (ratings : List Rating) (book_id : String) : List Rating :=
  ratings.filter fun r =>
    (sim_user_recs ratings book_id).any (fun p => p.1 == r.isbn) &&
      decide (r.bookRating > 8)

/-- all_users_recs models main.py lines 78-79: `value_counts` of the `ISBN` column
of `all_users`, divided by the number of distinct users appearing in `all_users`. -/
def all_users_recs (ratings : List Rating) (book_id : String) : List (String × ℚ) :=
  (value_counts ((all_users ratings book_id).map Rating.isbn)).map fun kn =>
    (kn.1, (kn.2 : ℚ) / ((unique ((all_users ratings book_id).map Rating.userId)).length : ℚ))

/-- RecRow is a row of the `rec_percentages` DataFrame: the index value (`ISBN`)
with the `Similar` and `All` columns; a missing cell (an index value present in
only one operand of the concat) is `none`. -/
abbrev RecRow := String × Option ℚ × Option ℚ

/-- lookupCol reads the cell of a single-column series at a given index value:
`none` when the index value is absent. -/
def lookupCol (l : List (String × ℚ)) (k : String) : Option ℚ :=
  (l.find? fun p => p.1 == k).map Prod.snd

/-- rec_percentages models main.py lines 80-82: the outer concat (axis=1, default
`sort=False`) of `sim_user_recs` and `all_users_recs`, aligned on the first
operand's index order with unmatched keys of the second appended. -/
def rec_percentages (ratings : List Rating) (book_id : String) : List RecRow :=
  let s := sim_user_recs ratings book_id
  let a := all_users_recs ratings book_id
  let keys := s.map Prod.fst ++ (a.map Prod.fst).filter fun k => !(s.map Prod.fst).contains k
  keys.map fun k => (k, lookupCol s k, lookupCol a k)

/-- rowScore models main.py lines 83-84: the `Score` column, `Similar / All`; a row
with a missing operand gets a missing (`NaN`) score. -/
def rowScore (row : RecRow) : Option ℚ :=
  match row.2.1, row.2.2 with
  | some s, some a => some (s / a)
  | _, _ => none

/-- scoreRel orders rows by descending `Score`, with a missing (`NaN`) score last;
it is the sort relation used to model `sort_values('Score', ascending=False)`
(default `kind` of quicksort, so the order among equal scores is an
idealization; see the module header). -/
def scoreRel (r1 r2 : RecRow) : Prop :=
  match rowScore r1, rowScore r2 with
  | some a, some b => b ≤ a
  | some _, none => True
  | none, some _ => False
  | none, none => True

instance : DecidableRel scoreRel := fun r1 r2 => by
  unfold scoreRel
  rcases rowScore r1 with _ | a <;> rcases rowScore r2 with _ | b <;>
    simp only <;> infer_instance

instance : IsTotal RecRow scoreRel :=
  ⟨fun r1 r2 => by
    unfold scoreRel
    rcases rowScore r1 with _ | a <;> rcases rowScore r2 with _ | b <;> simp only
    · exact Or.inl trivial
    · exact Or.inr trivial
    · exact Or.inl trivial
    · exact le_total b a⟩

instance : IsTrans RecRow scoreRel :=
  ⟨fun r1 r2 r3 => by
    unfold scoreRel
    rcases rowScore r1 with _ | a <;> rcases rowScore r2 with _ | b <;>
      rcases rowScore r3 with _ | c <;> simp only <;> intro h1 h2 <;> try trivial
    exact le_trans h2 h1⟩

/-- ranked_recs models main.py lines 85-86: `rec_percentages` sorted by descending
`Score`, missing scores last; equal-score rows keep their `rec_percentages`
order here, though the library leaves that order unspecified (see the module
header). -/
def ranked_recs (ratings : List Rating) (book_id : String) : List RecRow :=
  List.insertionSort scoreRel (rec_percentages ratings book_id)

/-- find_most_similar models main.py lines 45-89: it drops the input book from the
ranked list and returns the index (`.name`) of the first remaining row;
`.iloc[0]` on an empty selection raises `IndexError`. -/
def find_most_similar (ratings : List Rating) (book_id : String) : Except PdError String :=
  match (ranked_recs ratings book_id).filter (fun row => row.1 != book_id) with
  | [] => Except.error PdError.indexError
  | row :: _ => Except.ok row.1

/-- get_name_from_isbn models main.py lines 26-42:
`books[books['ISBN'] == isbn].iloc[0]['Book-Title']`; `.iloc[0]` on an empty
selection raises `IndexError`. -/
def get_name_from_isbn (books : List Book) (isbn : String) : Except PdError String :=
  match books.filter (fun b => b.isbn == isbn) with
  | [] => Except.error PdError.indexError
  | b :: _ => Except.ok b.title

/-- prep_dataset models main.py lines 92-119, parameterised by the three loaded
tables (the CSV reads are external I/O): drop the image columns, drop book rows
with a missing author or publisher, drop the users' `Age` column, and drop
rating rows whose `ISBN` is not in the surviving book table. -/
def prep_dataset (books : List RawBook) (ratings : List Rating) (users : List RawUser) :
    List Book × List Rating × List User :=
  let books1 := books.map dropImageCols
  let books2 := books1.filter fun b => !(b.author.isNone || b.publisher.isNone)
  let users1 := users.map dropAgeCol
  let ratings1 := ratings.filter fun r => (books2.map Book.isbn).contains r.isbn
  (books2, ratings1, users1)

/-- scoreOf reads the `Score` cell of the `rec_percentages` row at a given index
value. -/
def scoreOf (ratings : List Rating) (book_id : String) (k : String) : Option (Option ℚ) :=
  ((rec_percentages ratings book_id).find? fun row => row.1 == k).map rowScore

/-! Concrete tables used by the witnesses and the concrete-scenario claim. -/

/-- exRatings is the concrete scenario table: five likes (score 10) of `A` and of
`B` by users 1-5, one like of `C` by user 1, one rating of 1 for `C` by user 2. -/
def exRatings : List Rating :=
  [⟨1, "A", 10⟩, ⟨2, "A", 10⟩, ⟨3, "A", 10⟩, ⟨4, "A", 10⟩, ⟨5, "A", 10⟩,
   ⟨1, "B", 10⟩, ⟨2, "B", 10⟩, ⟨3, "B", 10⟩, ⟨4, "B", 10⟩, ⟨5, "B", 10⟩,
   ⟨1, "C", 10⟩, ⟨2, "C", 1⟩]

theorem exRatings_sim_user_fracs :
    sim_user_fracs exRatings "A" = [("A", 1), ("B", 1), ("C", 1/5)] := by
  have h : value_counts (sim_user_recs_series exRatings "A")
      = [("A", 5), ("B", 5), ("C", 1)] := by decide
  have hu : (sim_users exRatings "A").length = 5 := by decide
  simp [sim_user_fracs, h, hu]

theorem exRatings_sim_user_recs :
    sim_user_recs exRatings "A" = [("A", 1), ("B", 1), ("C", 1/5)] := by
  rw [sim_user_recs, exRatings_sim_user_fracs]
  norm_num [List.filter]

theorem exRatings_all_users :
    all_users exRatings "A"
      = [⟨1, "A", 10⟩, ⟨2, "A", 10⟩, ⟨3, "A", 10⟩, ⟨4, "A", 10⟩, ⟨5, "A", 10⟩,
         ⟨1, "B", 10⟩, ⟨2, "B", 10⟩, ⟨3, "B", 10⟩, ⟨4, "B", 10⟩, ⟨5, "B", 10⟩,
         ⟨1, "C", 10⟩] := by
  simp only [all_users, exRatings_sim_user_recs]
  decide

theorem exRatings_all_users_recs :
    all_users_recs exRatings "A" = [("A", 1), ("B", 1), ("C", 1/5)] := by
  have h : value_counts ((all_users exRatings "A").map Rating.isbn)
      = [("A", 5), ("B", 5), ("C", 1)] := by
    rw [exRatings_all_users]; decide
  have hu : (unique ((all_users exRatings "A").map Rating.userId)).length = 5 := by
    rw [exRatings_all_users]; decide
  simp [all_users_recs, h, hu]

theorem exRatings_rec_percentages :
    rec_percentages exRatings "A"
      = [("A", some 1, some 1), ("B", some 1, some 1),
         ("C", some (1/5), some (1/5))] := by
  simp only [rec_percentages, exRatings_sim_user_recs, exRatings_all_users_recs]
  simp [lookupCol, List.find?]

theorem exRatings_ranked_recs :
    ranked_recs exRatings "A"
      = [("A", some 1, some 1), ("B", some 1, some 1),
         ("C", some (1/5), some (1/5))] := by
  simp only [ranked_recs, exRatings_rec_percentages]
  norm_num [List.insertionSort, List.orderedInsert, scoreRel, rowScore]

theorem exRatings_find :
    find_most_similar exRatings "A" = Except.ok "B" := by
  simp only [find_most_similar, exRatings_ranked_recs]
  rfl

/-- exBooks: a one-row cleaned book table. -/
def exBooks : List Book :=
  [⟨"X", "TitleX", some "AuthorX", some "PubX"⟩]

/-- exRawBooks: two raw book rows, one complete (`X`) and one missing its author
(`Y`). -/
def exRawBooks : List RawBook :=
  [⟨"X", "TitleX", some "AuthorX", some "PubX", some "u1", some "u2", some "u3"⟩,
   ⟨"Y", "TitleY", none, some "PubY", none, none, none⟩]

/-- exRawRatings: one rating of a surviving book (`X`) and one of a dropped book
(`Z`). -/
def exRawRatings : List Rating :=
  [⟨1, "X", 9⟩, ⟨1, "Z", 9⟩]

/-- exTwoBooks: a single user likes both `A` and `B`. -/
def exTwoBooks : List Rating :=
  [⟨1, "A", 10⟩, ⟨1, "B", 10⟩]

/-- exOnlySelf: a single user likes only `A`, so `A` is its own sole candidate. -/
def exOnlySelf : List Rating :=
  [⟨1, "A", 10⟩]

/-- exNoLikers: `A` is rated but never liked (no rating strictly above 8). -/
def exNoLikers : List Rating :=
  [⟨1, "A", 5⟩, ⟨1, "B", 10⟩]

/-- ex20: twenty users like `A`; one of them also likes `B` (a fraction of exactly
1/20 = 0.05) and two of them also like `D` (a fraction of 2/20, strictly above
0.05). -/
def ex20 : List Rating :=
  [⟨1, "A", 10⟩, ⟨2, "A", 10⟩, ⟨3, "A", 10⟩, ⟨4, "A", 10⟩, ⟨5, "A", 10⟩,
   ⟨6, "A", 10⟩, ⟨7, "A", 10⟩, ⟨8, "A", 10⟩, ⟨9, "A", 10⟩, ⟨10, "A", 10⟩,
   ⟨11, "A", 10⟩, ⟨12, "A", 10⟩, ⟨13, "A", 10⟩, ⟨14, "A", 10⟩, ⟨15, "A", 10⟩,
   ⟨16, "A", 10⟩, ⟨17, "A", 10⟩, ⟨18, "A", 10⟩, ⟨19, "A", 10⟩, ⟨20, "A", 10⟩,
   ⟨1, "B", 10⟩, ⟨1, "D", 10⟩, ⟨2, "D", 10⟩]

theorem exTwoBooks_sim_user_fracs :
    sim_user_fracs exTwoBooks "A" = [("A", 1), ("B", 1)] := by
  have h : value_counts (sim_user_recs_series exTwoBooks "A")
      = [("A", 1), ("B", 1)] := by decide
  have hu : (sim_users exTwoBooks "A").length = 1 := by decide
  simp [sim_user_fracs, h, hu]

theorem exTwoBooks_sim_user_recs :
    sim_user_recs exTwoBooks "A" = [("A", 1), ("B", 1)] := by
  rw [sim_user_recs, exTwoBooks_sim_user_fracs]
  norm_num [List.filter]

theorem exTwoBooks_all_users :
    all_users exTwoBooks "A" = [⟨1, "A", 10⟩, ⟨1, "B", 10⟩] := by
  simp only [all_users, exTwoBooks_sim_user_recs]
  decide

theorem exTwoBooks_all_users_recs :
    all_users_recs exTwoBooks "A" = [("A", 1), ("B", 1)] := by
  have h : value_counts ((all_users exTwoBooks "A").map Rating.isbn)
      = [("A", 1), ("B", 1)] := by
    rw [exTwoBooks_all_users]; decide
  have hu : (unique ((all_users exTwoBooks "A").map Rating.userId)).length = 1 := by
    rw [exTwoBooks_all_users]; decide
  simp [all_users_recs, h, hu]

theorem exTwoBooks_rec_percentages :
    rec_percentages exTwoBooks "A"
      = [("A", some 1, some 1), ("B", some 1, some 1)] := by
  simp only [rec_percentages, exTwoBooks_sim_user_recs, exTwoBooks_all_users_recs]
  simp [lookupCol, List.find?]

theorem exTwoBooks_ranked_recs :
    ranked_recs exTwoBooks "A"
      = [("A", some 1, some 1), ("B", some 1, some 1)] := by
  simp only [ranked_recs, exTwoBooks_rec_percentages]
  norm_num [List.insertionSort, List.orderedInsert, scoreRel, rowScore]

theorem exTwoBooks_find :
    find_most_similar exTwoBooks "A" = Except.ok "B" := by
  simp only [find_most_similar, exTwoBooks_ranked_recs]
  rfl

theorem exOnlySelf_sim_user_fracs :
    sim_user_fracs exOnlySelf "A" = [("A", 1)] := by
  have h : value_counts (sim_user_recs_series exOnlySelf "A") = [("A", 1)] := by decide
  have hu : (sim_users exOnlySelf "A").length = 1 := by decide
  simp [sim_user_fracs, h, hu]

theorem exOnlySelf_sim_user_recs :
    sim_user_recs exOnlySelf "A" = [("A", 1)] := by
  rw [sim_user_recs, exOnlySelf_sim_user_fracs]
  norm_num [List.filter]

theorem exOnlySelf_all_users_recs :
    all_users_recs exOnlySelf "A" = [("A", 1)] := by
  have ha : all_users exOnlySelf "A" = [⟨1, "A", 10⟩] := by
    simp only [all_users, exOnlySelf_sim_user_recs]
    decide
  have h : value_counts ((all_users exOnlySelf "A").map Rating.isbn) = [("A", 1)] := by
    rw [ha]; decide
  have hu : (unique ((all_users exOnlySelf "A").map Rating.userId)).length = 1 := by
    rw [ha]; decide
  simp [all_users_recs, h, hu]

theorem exOnlySelf_ranked_recs :
    ranked_recs exOnlySelf "A" = [("A", some 1, some 1)] := by
  have h : rec_percentages exOnlySelf "A" = [("A", some 1, some 1)] := by
    simp only [rec_percentages, exOnlySelf_sim_user_recs, exOnlySelf_all_users_recs]
    simp [lookupCol, List.find?]
  simp only [ranked_recs, h]
  norm_num [List.insertionSort, List.orderedInsert, scoreRel, rowScore]

theorem exOnlySelf_find :
    find_most_similar exOnlySelf "A" = Except.error PdError.indexError := by
  simp only [find_most_similar, exOnlySelf_ranked_recs]
  rfl

theorem exNoLikers_find :
    find_most_similar exNoLikers "A" = Except.error PdError.indexError := rfl

theorem ex20_sim_user_fracs :
    sim_user_fracs ex20 "A" = [("A", 1), ("D", 1/10), ("B", 1/20)] := by
  have h : value_counts (sim_user_recs_series ex20 "A")
      = [("A", 20), ("D", 2), ("B", 1)] := by decide
  have hu : (sim_users ex20 "A").length = 20 := by decide
  simp [sim_user_fracs, h, hu]
  norm_num

theorem ex20_sim_user_recs :
    sim_user_recs ex20 "A" = [("A", 1), ("D", 1/10)] := by
  rw [sim_user_recs, ex20_sim_user_fracs]
  norm_num [List.filter]

/-! Generic lemmas about the embedded table operations. -/

theorem mem_uniqueAux [DecidableEq α] (x : α) (l : List α) :
    ∀ seen, x ∈ uniqueAux seen l ↔ x ∈ l ∧ x ∉ seen := by
  induction l with
  | nil => intro seen; simp [uniqueAux]
  | cons y ys ih =>
    intro seen
    rw [uniqueAux]
    by_cases hy : y ∈ seen
    · rw [if_pos hy, ih seen]
      constructor
      · exact fun h => ⟨List.mem_cons_of_mem y h.1, h.2⟩
      · rintro ⟨h1, h2⟩
        rcases List.mem_cons.1 h1 with rfl | h1
        · exact absurd hy h2
        · exact ⟨h1, h2⟩
    · rw [if_neg hy, List.mem_cons, ih (y :: seen)]
      constructor
      · rintro (rfl | ⟨h1, h2⟩)
        · exact ⟨List.mem_cons_self x ys, hy⟩
        · exact ⟨List.mem_cons_of_mem y h1,
            fun hx => h2 (List.mem_cons_of_mem y hx)⟩
      · rintro ⟨h1, h2⟩
        rcases List.mem_cons.1 h1 with rfl | h1
        · exact Or.inl rfl
        · by_cases hxy : x = y
          · exact Or.inl hxy
          · exact Or.inr ⟨h1, fun hx => (List.mem_cons.1 hx).elim hxy h2⟩

theorem mem_unique [DecidableEq α] {x : α} {l : List α} : x ∈ unique l ↔ x ∈ l := by
  rw [unique, mem_uniqueAux]
  simp

theorem mem_value_counts {kn : String × Nat} {l : List String} :
    kn ∈ value_counts l ↔ ∃ k, k ∈ l ∧ kn = (k, l.count k) := by
  rw [value_counts, List.mem_insertionSort]
  constructor
  · intro h
    obtain ⟨k, hk, he⟩ := List.mem_map.1 h
    exact ⟨k, mem_unique.1 hk, he.symm⟩
  · rintro ⟨k, hk, rfl⟩
    exact List.mem_map.2 ⟨k, mem_unique.2 hk, rfl⟩

/-! Claim theorems. -/

/-- Claim C1: for the concrete scenario table (five likes of `A` and of `B` by
users 1-5, one like of `C` by user 1, one rating of 1 for `C` by user 2),
`find_most_similar` on target `A` succeeds and returns `B`; candidates `B` and
`C` both survive the 0.05 threshold, both get lift score 1, and the tie
resolves to `B`. -/
theorem C1_concrete_scenario :
    find_most_similar exRatings "A" = Except.ok "B" ∧
    ("B", (1 : ℚ)) ∈ sim_user_recs exRatings "A" ∧
    ("C", (1 : ℚ)/5) ∈ sim_user_recs exRatings "A" ∧
    scoreOf exRatings "A" "B" = some (some 1) ∧
    scoreOf exRatings "A" "C" = some (some 1) := by
  refine ⟨exRatings_find, ?_, ?_, ?_, ?_⟩
  · rw [exRatings_sim_user_recs]; simp
  · rw [exRatings_sim_user_recs]; simp
  · rw [scoreOf, exRatings_rec_percentages]
    have e1 : (("A" : String) == "B") = false := by decide
    have e2 : (("B" : String) == "B") = true := by decide
    norm_num [List.find?, e1, e2, rowScore]
  · rw [scoreOf, exRatings_rec_percentages]
    have e1 : (("A" : String) == "C") = false := by decide
    have e2 : (("B" : String) == "C") = false := by decide
    have e3 : (("C" : String) == "C") = true := by decide
    norm_num [List.find?, e1, e2, e3, rowScore]

/-- Claim C3: for every raw input tables, every rating row surviving
`prep_dataset` references an `ISBN` present in the surviving book table (the
rating filter runs against the already-filtered book set), and no surviving
book row is missing its author or its publisher. -/
theorem C3_clean_referential_integrity (books : List RawBook) (ratings : List Rating)
    (users : List RawUser) :
    (∀ r ∈ (prep_dataset books ratings users).2.1,
        r.isbn ∈ ((prep_dataset books ratings users).1).map Book.isbn) ∧
    (∀ b ∈ (prep_dataset books ratings users).1,
        b.author.isSome ∧ b.publisher.isSome) := by
  constructor
  · intro r hr
    simp only [prep_dataset] at hr ⊢
    have h := List.mem_filter.1 hr
    simpa using h.2
  · intro b hb
    simp only [prep_dataset] at hb
    have h := (List.mem_filter.1 hb).2
    rcases ha : b.author with _ | a <;> rcases hp : b.publisher with _ | pb <;>
      simp [ha, hp] at h ⊢

/-- Witness for C3 at a concrete input: the surviving rating row for `X`
references a surviving book, and the surviving book `X` has its author and
publisher present. -/
theorem C3_witness :
    ((⟨1, "X", 9⟩ : Rating).isbn ∈
      ((prep_dataset exRawBooks exRawRatings []).1).map Book.isbn) ∧
    ((⟨"X", "TitleX", some "AuthorX", some "PubX"⟩ : Book).author.isSome ∧
      (⟨"X", "TitleX", some "AuthorX", some "PubX"⟩ : Book).publisher.isSome) :=
  ⟨(C3_clean_referential_integrity exRawBooks exRawRatings []).1 ⟨1, "X", 9⟩ (by decide),
    (C3_clean_referential_integrity exRawBooks exRawRatings []).2
      ⟨"X", "TitleX", some "AuthorX", some "PubX"⟩ (by decide)⟩

/-- find_error_of_no_like_rows: when the ratings table holds no like row for the
target, every intermediate table of `find_most_similar` is empty and the final
`.iloc[0]` fails. -/
theorem find_error_of_no_like_rows (ratings : List Rating) (book_id : String)
    (h : book_ratings ratings book_id = []) :
    find_most_similar ratings book_id = Except.error PdError.indexError := by
  have hsu : sim_users ratings book_id = [] := by
    rw [sim_users, h]; rfl
  have hser : sim_user_recs_series ratings book_id = [] := by
    rw [sim_user_recs_series, hsu]
    simp [List.filter_eq_nil_iff]
  have hf : sim_user_fracs ratings book_id = [] := by
    rw [sim_user_fracs, hser]; rfl
  have hrec : sim_user_recs ratings book_id = [] := by
    rw [sim_user_recs, hf]; rfl
  have hau : all_users ratings book_id = [] := by
    rw [all_users]
    simp [hrec, List.filter_eq_nil_iff]
  have haur : all_users_recs ratings book_id = [] := by
    rw [all_users_recs, hau]; rfl
  have hrp : rec_percentages ratings book_id = [] := by
    rw [rec_percentages]
    simp [hrec, haur]
  rw [find_most_similar, ranked_recs, hrp]
  rfl

/-- Claim C4: for every ratings table and target id with no like row (no rating
strictly above 8 for that id) — in particular any id absent from the table —
`find_most_similar` fails (with the `IndexError` failure of the recommender,
not a success and not the catalog lookup failure: the function never consults
the book table). -/
theorem C4_no_likers_fails (ratings : List Rating) (book_id : String)
    (h : ∀ r ∈ ratings, ¬(r.isbn = book_id ∧ r.bookRating > 8)) :
    find_most_similar ratings book_id = Except.error PdError.indexError := by
  apply find_error_of_no_like_rows
  rw [book_ratings, List.filter_eq_nil_iff]
  intro r hr
  simpa using h r hr

/-- Witness for C4 at a concrete input: `A` is rated but never liked, and
`find_most_similar` fails. -/
theorem C4_witness :
    find_most_similar exNoLikers "A" = Except.error PdError.indexError :=
  C4_no_likers_fails exNoLikers "A" (by decide)

/-- Counterexample for C5: a zero-likers failure (spec kind `NoSimilarUsers`,
table `exNoLikers`) and an only-candidate-is-the-target failure (spec kind
`NoCandidates`, table `exOnlySelf`) surface as the very same value
(`IndexError`), so a caller cannot tell which of the failure kinds occurred. -/
theorem C5_counterexample_indistinguishable :
    find_most_similar exNoLikers "A" = Except.error PdError.indexError ∧
    find_most_similar exOnlySelf "A" = Except.error PdError.indexError ∧
    find_most_similar exNoLikers "A" = find_most_similar exOnlySelf "A" :=
  ⟨exNoLikers_find, exOnlySelf_find, exNoLikers_find.trans exOnlySelf_find.symm⟩

/-- Amended C5: every failure of the core is the one untyped `IndexError`: when a
title lookup fails and a recommendation fails, the two observed results are
identical, so the failure kinds of the spec are not distinguishable from the
result values. -/
theorem C5_amended_single_failure_kind (books : List Book) (ratings : List Rating)
    (isbn book_id : String)
    (h1 : ∀ t, get_name_from_isbn books isbn ≠ Except.ok t)
    (h2 : ∀ t, find_most_similar ratings book_id ≠ Except.ok t) :
    get_name_from_isbn books isbn = Except.error PdError.indexError ∧
    find_most_similar ratings book_id = Except.error PdError.indexError ∧
    get_name_from_isbn books isbn = find_most_similar ratings book_id := by
  have e1 : get_name_from_isbn books isbn = Except.error PdError.indexError := by
    rcases h : get_name_from_isbn books isbn with e | t
    · cases e; rfl
    · exact absurd h (h1 t)
  have e2 : find_most_similar ratings book_id = Except.error PdError.indexError := by
    rcases h : find_most_similar ratings book_id with e | t
    · cases e; rfl
    · exact absurd h (h2 t)
  exact ⟨e1, e2, e1.trans e2.symm⟩

/-- Witness for the amended C5 at concrete inputs: an empty catalog lookup and a
zero-likers recommendation both fail, with identical results. -/
theorem C5_amended_witness :
    get_name_from_isbn [] "A" = Except.error PdError.indexError ∧
    find_most_similar exNoLikers "A" = Except.error PdError.indexError ∧
    get_name_from_isbn [] "A" = find_most_similar exNoLikers "A" := by
  refine C5_amended_single_failure_kind [] exNoLikers "A" "A" ?_ ?_
  · intro t h
    rw [show get_name_from_isbn [] "A" = Except.error PdError.indexError from rfl] at h
    exact Except.noConfusion h
  · intro t h
    rw [show find_most_similar exNoLikers "A" = Except.error PdError.indexError from rfl] at h
    exact Except.noConfusion h

/-- Claim C6: `find_most_similar` never returns the target id: the target is
excluded from the ranked list before `.iloc[0]`, and when the exclusion empties
the list the call fails instead of returning anything. -/
theorem C6_irreflexive (ratings : List Rating) (book_id : String) :
    (∀ y, find_most_similar ratings book_id = Except.ok y → y ≠ book_id) ∧
    ((ranked_recs ratings book_id).filter (fun row => row.1 != book_id) = [] →
      find_most_similar ratings book_id = Except.error PdError.indexError) := by
  constructor
  · intro y hy
    rw [find_most_similar] at hy
    rcases hf : (ranked_recs ratings book_id).filter (fun row => row.1 != book_id)
      with _ | ⟨row, rest⟩
    · rw [hf] at hy
      exact absurd hy (by simp)
    · rw [hf] at hy
      have hrow : row ∈ (ranked_recs ratings book_id).filter
          (fun row => row.1 != book_id) := by
        rw [hf]; exact List.mem_cons_self row rest
      have hpred := (List.mem_filter.1 hrow).2
      have hne : row.1 ≠ book_id := by simpa using hpred
      have hyrow : row.1 = y := by
        simpa using hy
      rw [← hyrow]
      exact hne
  · intro h
    rw [find_most_similar, h]

/-- Witness for C6 at concrete inputs: the returned id differs from the target,
and a run whose exclusion empties the list fails. -/
theorem C6_witness :
    ("B" : String) ≠ "A" ∧
    find_most_similar exOnlySelf "A" = Except.error PdError.indexError := by
  constructor
  · exact (C6_irreflexive exTwoBooks "A").1 "B" exTwoBooks_find
  · refine (C6_irreflexive exOnlySelf "A").2 ?_
    rw [exOnlySelf_ranked_recs]
    decide

/-- Claim C7: the similar-user-support filter compares strictly against 0.05: a
candidate row whose fraction equals exactly 0.05 is excluded from the candidate
set, and one whose fraction is strictly greater is included. -/
theorem C7_strict_threshold (ratings : List Rating) (book_id : String)
    (p : String × ℚ) (hp : p ∈ sim_user_fracs ratings book_id) :
    (p.2 = 0.05 → p ∉ sim_user_recs ratings book_id) ∧
    (p.2 > 0.05 → p ∈ sim_user_recs ratings book_id) := by
  constructor
  · intro he hmem
    rw [sim_user_recs, List.mem_filter] at hmem
    have := hmem.2
    rw [he] at this
    simp at this
  · intro hgt
    rw [sim_user_recs, List.mem_filter]
    exact ⟨hp, by simpa using hgt⟩

/-- Witness for C7 at a concrete input: with twenty likers of the target, the
candidate liked by exactly one of them (fraction 1/20 = 0.05) is excluded,
while the candidate liked by two of them (fraction 2/20 > 0.05) is included. -/
theorem C7_witness :
    ("B", (1 : ℚ)/20) ∉ sim_user_recs ex20 "A" ∧
    ("D", (1 : ℚ)/10) ∈ sim_user_recs ex20 "A" := by
  constructor
  · refine (C7_strict_threshold ex20 "A" ("B", (1 : ℚ)/20) ?_).1 (by norm_num)
    rw [ex20_sim_user_fracs]
    simp
  · refine (C7_strict_threshold ex20 "A" ("D", (1 : ℚ)/10) ?_).2 (by norm_num)
    rw [ex20_sim_user_fracs]
    simp

/-- Claim C8: cleaning is idempotent: re-running `prep_dataset` on its own three
outputs (re-embedded into the raw schemas, where the dropped columns are
missing cells) returns them unchanged. -/
theorem C8_clean_idempotent (books : List RawBook) (ratings : List Rating)
    (users : List RawUser) :
    prep_dataset (((prep_dataset books ratings users).1).map Book.toRaw)
        ((prep_dataset books ratings users).2.1)
        (((prep_dataset books ratings users).2.2).map User.toRaw)
      = prep_dataset books ratings users := by
  simp only [prep_dataset, List.map_map]
  rw [show dropImageCols ∘ Book.toRaw = id from rfl,
    show dropAgeCol ∘ User.toRaw ∘ dropAgeCol = dropAgeCol from rfl, List.map_id]
  simp only [List.filter_filter, Bool.and_self]

/-- Claim C9: every candidate surviving the threshold contributes at least one
like row to the combined like-population, so its `All` cell is present and
strictly positive and the `Score` division never divides by zero. -/
theorem C9_global_fraction_pos (ratings : List Rating) (book_id : String) (c : String)
    (hc : c ∈ (sim_user_recs ratings book_id).map Prod.fst) :
    ∃ q, lookupCol (all_users_recs ratings book_id) c = some q ∧ 0 < q := by
  obtain ⟨p, hp, hpc⟩ := List.mem_map.1 hc
  have hpf : p ∈ sim_user_fracs ratings book_id := by
    rw [sim_user_recs] at hp
    exact (List.mem_filter.1 hp).1
  rw [sim_user_fracs] at hpf
  obtain ⟨kn, hkn, hfeq⟩ := List.mem_map.1 hpf
  rw [mem_value_counts] at hkn
  obtain ⟨k, hkmem, rfl⟩ := hkn
  have hpk : p.1 = k := by rw [← hfeq]
  have hck : c = k := by rw [← hpc, hpk]
  rw [sim_user_recs_series] at hkmem
  obtain ⟨r0, hr0, hr0isbn⟩ := List.mem_map.1 hkmem
  have hr0mem := (List.mem_filter.1 hr0).1
  have hr0pred := (List.mem_filter.1 hr0).2
  have hr0rating : r0.bookRating > 8 := by
    have h2 := hr0pred
    simp only [Bool.and_eq_true, decide_eq_true_eq] at h2
    exact h2.2
  have hany : (sim_user_recs ratings book_id).any (fun pp => pp.1 == r0.isbn) = true := by
    apply List.any_eq_true.2
    refine ⟨p, hp, ?_⟩
    rw [hpk, hr0isbn]
    simp
  have hr0au : r0 ∈ all_users ratings book_id := by
    rw [all_users, List.mem_filter]
    refine ⟨hr0mem, ?_⟩
    rw [Bool.and_eq_true]
    exact ⟨hany, by simpa using hr0rating⟩
  have hcau : c ∈ (all_users ratings book_id).map Rating.isbn :=
    List.mem_map.2 ⟨r0, hr0au, by rw [hr0isbn, hck]⟩
  have htot : 0 < (unique ((all_users ratings book_id).map Rating.userId)).length := by
    apply List.length_pos_of_mem
    exact mem_unique.2 (List.mem_map.2 ⟨r0, hr0au, rfl⟩)
  have hvc : (c, ((all_users ratings book_id).map Rating.isbn).count c) ∈
      value_counts ((all_users ratings book_id).map Rating.isbn) :=
    mem_value_counts.2 ⟨c, hcau, rfl⟩
  have hmemaur : (c, (((all_users ratings book_id).map Rating.isbn).count c : ℚ) /
      ((unique ((all_users ratings book_id).map Rating.userId)).length : ℚ)) ∈
      all_users_recs ratings book_id := by
    rw [all_users_recs]
    exact List.mem_map.2 ⟨_, hvc, rfl⟩
  rw [lookupCol]
  rcases hfind : (all_users_recs ratings book_id).find? (fun pp => pp.1 == c) with _ | p1
  · exfalso
    have hsome : ((all_users_recs ratings book_id).find? (fun pp => pp.1 == c)).isSome :=
      List.find?_isSome.2 ⟨_, hmemaur, by simp⟩
    rw [hfind] at hsome
    exact absurd hsome (by simp)
  · have hp1mem := List.mem_of_find?_eq_some hfind
    rw [all_users_recs] at hp1mem
    obtain ⟨kn1, hkn1, hfeq1⟩ := List.mem_map.1 hp1mem
    rw [mem_value_counts] at hkn1
    obtain ⟨k1, hk1mem, rfl⟩ := hkn1
    rw [hfind]
    refine ⟨p1.2, rfl, ?_⟩
    have hp2 : p1.2 = ((((all_users ratings book_id).map Rating.isbn).count k1 : ℚ) /
        ((unique ((all_users ratings book_id).map Rating.userId)).length : ℚ)) := by
      rw [← hfeq1]
    rw [hp2]
    apply div_pos
    · have : 0 < ((all_users ratings book_id).map Rating.isbn).count k1 :=
        List.count_pos_iff.2 hk1mem
      exact_mod_cast this
    · exact_mod_cast htot

/-- Witness for C9 at a concrete input: candidate `B` survives the threshold and
its global fraction is present and positive. -/
theorem C9_witness :
    ∃ q, lookupCol (all_users_recs exTwoBooks "A") "B" = some q ∧ 0 < q := by
  refine C9_global_fraction_pos exTwoBooks "A" "B" ?_
  rw [exTwoBooks_sim_user_recs]
  simp

/-- Claim C10: `get_name_from_isbn` fails (with the `IndexError` standing for
`ItemNotFound`) exactly when the id is absent from the book table, and when the
id is present it returns the title of the first matching row; it has no other
behaviour. -/
theorem C10_titleOf (books : List Book) (isbn : String) :
    (get_name_from_isbn books isbn = Except.error PdError.indexError ↔
        ∀ b ∈ books, b.isbn ≠ isbn) ∧
    (∀ b, books.find? (fun x => x.isbn == isbn) = some b →
        get_name_from_isbn books isbn = Except.ok b.title) := by
  constructor
  · rw [get_name_from_isbn]
    rcases hf : books.filter (fun b => b.isbn == isbn) with _ | ⟨b, rest⟩
    · rw [hf]
      constructor
      · intro _ b hb he
        have hmem : b ∈ books.filter (fun b => b.isbn == isbn) :=
          List.mem_filter.2 ⟨hb, by simp [he]⟩
        rw [hf] at hmem
        exact absurd hmem (List.not_mem_nil b)
      · intro _
        rfl
    · rw [hf]
      constructor
      · intro h
        exact absurd h (by simp)
      · intro hall
        exfalso
        have hmem : b ∈ books.filter (fun b => b.isbn == isbn) := by
          rw [hf]; exact List.mem_cons_self b rest
        have h2 := List.mem_filter.1 hmem
        exact absurd (by simpa using h2.2) (hall b h2.1)
  · intro b hb
    have hh : (books.filter (fun x => x.isbn == isbn)).head? = some b := by
      rw [List.filter_head?]
      exact hb
    rw [get_name_from_isbn]
    rcases hf : books.filter (fun x => x.isbn == isbn) with _ | ⟨c, rest⟩
    · rw [hf] at hh
      exact absurd hh (by simp)
    · rw [hf] at hh
      simp only [List.head?_cons, Option.some.injEq] at hh
      rw [hf, hh]

/-- Witness for C10 at a concrete input: a lookup of an absent id fails, and a
lookup of a present id returns the first matching row's title. -/
theorem C10_witness :
    get_name_from_isbn exBooks "Z" = Except.error PdError.indexError ∧
    get_name_from_isbn exBooks "X" = Except.ok "TitleX" := by
  constructor
  · exact (C10_titleOf exBooks "Z").1.mpr (by decide)
  · exact (C10_titleOf exBooks "X").2 ⟨"X", "TitleX", some "AuthorX", some "PubX"⟩
      (by decide)

end BookRecommender
